import Mathlib

/-!
Verification of the cephci cluster model and upgrade workflow.

This file gives a shallow embedding, in Lean 4, of the parts of
`ceph/ceph.py` and `tests/cephadm/test_cephadm_upgrade.py` that the
frozen claims talk about, and settles each claim against that embedding.

Conventions of the embedding:
* Python byte strings are `List Nat` (each entry < 256), Python text
  strings are Lean `String` (or `List Nat` of code points for decoder
  output, to avoid `Char` validity side conditions).
* Fallible Python code (code that can raise) is modelled with `Except`
  or `Option`; the remote side (command outputs, connection attempts)
  is passed in as explicit parameters.
* Mutable object state (`CephNode.volume_list`, `ceph_object_list`,
  decoder state, the outage bookkeeping of `SSHConnectionManager`) is
  threaded explicitly.
-/

/- ---------------------------------------------------------------
   Small Python-semantics helpers shared by several embeddings.
   --------------------------------------------------------------- -/

/-- Python substring test `needle in hay` on character lists. -/
def containsSub (needle : List Char) : List Char → Bool
  | [] => needle.isEmpty
  | c :: t => if needle.isPrefixOf (c :: t) then true else containsSub needle t

/-- Python substring test `sub in hay` on strings. -/
def containsStr (hay sub : String) : Bool :=
  containsSub sub.data hay.data

/-- Python `s.startswith(p)`. -/
def startsWithB (s p : String) : Bool :=
  p.data.isPrefixOf s.data

/-- Python lexicographic `<` on strings, compared code point by code point. -/
def strLtB : List Char → List Char → Bool
  | [], [] => false
  | [], _ :: _ => true
  | _ :: _, [] => false
  | a :: as, b :: bs =>
    if a.toNat < b.toNat then true
    else if b.toNat < a.toNat then false
    else strLtB as bs

/-- Python `a >= b` on strings (negation of lexicographic `<`). -/
def pyStrGe (a b : String) : Bool :=
  !(strLtB a.data b.data)

/-- Python `s.split(".")` restricted to what the source needs: split a
character list at every dot.  `""` splits to `[""]`, as in Python. -/
def splitOnDot : List Char → List Char → List (List Char)
  | [], acc => [acc.reverse]
  | c :: t, acc =>
    if c = '.' then acc.reverse :: splitOnDot t [] else splitOnDot t (c :: acc)

/-- First component of `s.split(".")`, i.e. Python `s.split(".")[0]`. -/
def firstComponent (s : String) : String :=
  ⟨(splitOnDot s.data []).headD []⟩

/-- Python `list.remove(x)`: drop the first occurrence of `x`; `none`
models the `ValueError` raised when `x` is absent. -/
def eraseFirst [DecidableEq α] : List α → α → Option (List α)
  | [], _ => none
  | a :: as, x =>
    if a = x then some as else (eraseFirst as x).map (fun l => a :: l)

/-- Normalization Python applies to a list index: negative indices count
from the end of a list of length `n`. -/
def pyIndexNorm (n : Nat) (i : Int) : Int :=
  if i < 0 then (n : Int) + i else i

/-- Python list indexing `l[i]` with negative-index support; `Except.error`
models the `IndexError` raised when the index is out of range. -/
def pyListGet (l : List α) (i : Int) : Except String α :=
  if 0 ≤ pyIndexNorm l.length i then
    match l.get? (pyIndexNorm l.length i).toNat with
    | some a => .ok a
    | none => .error "IndexError"
  else .error "IndexError"

/- ---------------------------------------------------------------
   RolesContainer  (ceph/ceph.py lines 1199-1260)
   --------------------------------------------------------------- -/

/-- `RolesContainer`: the role list of a node.  The Python constructor
guarantees the list is non-empty (default sentinel role `"pool"`), but
no theorem below needs that. -/
structure RolesContainer where
  role_list : List String
deriving DecidableEq

/-- `RolesContainer.__eq__` applied to a `str` argument:
`role in self.role_list`. -/
def RolesContainer.eq_single (r : RolesContainer) (role : String) : Bool :=
  r.role_list.contains role

/-- `RolesContainer.__eq__` applied to a collection argument:
`all(atomic_role in role for atomic_role in self.role_list)`. -/
def RolesContainer.eq_collection (r : RolesContainer) (role : List String) : Bool :=
  r.role_list.all (fun atomic_role => role.contains atomic_role)

/- ---------------------------------------------------------------
   Volumes, ceph objects and the object factory
   (ceph/ceph.py lines 1263-1269, 1826-1847, 2313-2502, 2789-2827)
   --------------------------------------------------------------- -/

/-- `NodeVolume.FREE` / `NodeVolume.ALLOCATED`. -/
inductive VolStatus where
  | free
  | allocated
deriving DecidableEq

/-- `NodeVolume`: a storage volume of a node. -/
structure NodeVolume where
  status : VolStatus
  path : Option String := none
deriving DecidableEq

/-- Which Python class a created ceph object belongs to
(`CephObject`, `CephDemon`, `CephOsd`, `CephClient`, `CephInstaller`). -/
inductive CephObjKind where
  | generic
  | demon
  | osd
  | client
  | installer
deriving DecidableEq

/-- A ceph role object.  `device` is only meaningful for the `osd` kind
(`CephOsd.device`, `None` at construction time). -/
structure CephObjL where
  kind : CephObjKind
  role : String
  device : Option String := none
deriving DecidableEq

/-- `CephOsd.is_active`: `True if self.device else False` (Python
truthiness: `None` and the empty string are falsy). -/
def osd_is_active (o : CephObjL) : Bool :=
  match o.device with
  | none => false
  | some d => decide (d ≠ "")

/-- `CephObjectFactory.DEMON_ROLES`. -/
def DEMON_ROLES : List String := ["mon", "osd", "mgr", "rgw", "mds", "nfs", "grafana"]

/-- `CephObjectFactory.CLIENT_ROLES`. -/
def CLIENT_ROLES : List String := ["client"]

/-- Python `==` between a `str` and a `list` never dispatches to a
common comparison: both operands return `NotImplemented` and the result
is `False` for every string and every list.  This models the guard
`role == self.CLIENT_ROLES` in `create_ceph_object`. -/
def pyStrEqStrList (_s : String) (_l : List String) : Bool :=
  false

/-- `get_free_volumes()[0].status = NodeVolume.ALLOCATED`: mark the
first free volume allocated; `none` when no volume is free. -/
def allocFirstFree : List NodeVolume → Option (List NodeVolume)
  | [] => none
  | v :: vs =>
    if v.status = VolStatus.free then
      some ({ v with status := VolStatus.allocated } :: vs)
    else
      (allocFirstFree vs).map (fun l => v :: l)

/-- `get_allocated_volumes()[0].status = NodeVolume.FREE`: mark the
first allocated volume free; `none` models the `IndexError` raised when
no volume is allocated. -/
def freeFirstAllocated : List NodeVolume → Option (List NodeVolume)
  | [] => none
  | v :: vs =>
    if v.status = VolStatus.allocated then
      some ({ v with status := VolStatus.free } :: vs)
    else
      (freeFirstAllocated vs).map (fun l => v :: l)

/-- `CephObjectFactory.create_ceph_object(role)`.  The returned pair is
(created object, updated volume list); `Except.error` models the
`RuntimeError` raised when an OSD is requested and no volume is free.
The final fall-through for `role == "pool"` returns Python `None`,
modelled as `none`. -/
def create_ceph_object (volumes : List NodeVolume) (role : String) :
    Except String (Option CephObjL × List NodeVolume) :=
  if role = "installer" then
    .ok (some { kind := .installer, role := role }, volumes)
  else if pyStrEqStrList role CLIENT_ROLES then
    .ok (some { kind := .client, role := role }, volumes)
  else if role = "osd" then
    match allocFirstFree volumes with
    | some volumes1 => .ok (some { kind := .osd, role := role }, volumes1)
    | none => .error "RuntimeError: node does not have no-of-volumes key defined in the inventory file"
  else if DEMON_ROLES.contains role then
    .ok (some { kind := .demon, role := role }, volumes)
  else if role ≠ "pool" then
    .ok (some { kind := .generic, role := role }, volumes)
  else
    .ok (none, volumes)

/-- The mutable per-node state the claims are about: `volume_list` and
`ceph_object_list`. -/
structure CephNodeState where
  volumes : List NodeVolume
  ceph_object_list : List CephObjL
deriving DecidableEq

/-- `CephNode.create_ceph_object(role)`: call the factory, then append
the result to `ceph_object_list`.  (For `role == "pool"` the Python
code appends `None`; the model appends nothing, which is equivalent for
every count considered below.) -/
def node_create_ceph_object (st : CephNodeState) (role : String) :
    Except String (CephNodeState × Option CephObjL) :=
  match create_ceph_object st.volumes role with
  | .error e => .error e
  | .ok (obj, volumes1) =>
    .ok ({ volumes := volumes1,
           ceph_object_list := st.ceph_object_list ++ obj.toList }, obj)

/-- `CephNode.remove_ceph_object(obj)`: remove the object from
`ceph_object_list` (`ValueError` when absent), then, for an OSD, free
the first allocated volume (`IndexError` when none is allocated). -/
def remove_ceph_object (st : CephNodeState) (obj : CephObjL) :
    Except String CephNodeState :=
  match eraseFirst st.ceph_object_list obj with
  | none => .error "ValueError"
  | some objs1 =>
    if obj.role = "osd" then
      match freeFirstAllocated st.volumes with
      | none => .error "IndexError"
      | some volumes1 => .ok { volumes := volumes1, ceph_object_list := objs1 }
    else
      .ok { volumes := st.volumes, ceph_object_list := objs1 }

/-- Number of allocated volumes, `len(get_allocated_volumes())`. -/
def allocatedCount (vols : List NodeVolume) : Nat :=
  vols.countP (fun v => decide (v.status = VolStatus.allocated))

/-- Number of OSD role objects on the node. -/
def osdObjCount (objs : List CephObjL) : Nat :=
  objs.countP (fun o => decide (o.role = "osd"))

/-- Number of OSD role objects whose `is_active` property is `True`,
i.e. OSDs with a device assigned. -/
def activeOsdCount (objs : List CephObjL) : Nat :=
  objs.countP (fun o => decide (o.role = "osd") && osd_is_active o)

/-- The volume/OSD bookkeeping invariant of a node state. -/
def volumesOsdInv (st : CephNodeState) : Prop :=
  allocatedCount st.volumes = osdObjCount st.ceph_object_list

/- ---------------------------------------------------------------
   Cluster topology queries  (ceph/ceph.py lines 105-160, 1477-1481,
   1810-1824)
   --------------------------------------------------------------- -/

/-- `CephNode.role`: a `RolesContainer` built from the roles of the
objects in `ceph_object_list`. -/
def node_role (st : CephNodeState) : RolesContainer :=
  ⟨st.ceph_object_list.map (fun o => o.role)⟩

/-- `Ceph.get_nodes(role)` for a `str` role: keep the nodes whose
`RolesContainer` compares equal to the role (membership test); a falsy
(empty) role string returns every node. -/
def get_nodes (cluster : List CephNodeState) (role : String) : List CephNodeState :=
  if role ≠ "" then
    cluster.filter (fun n => (node_role n).eq_single role)
  else
    cluster

/-- `CephNode.get_ceph_objects(role)`:
`[d for d in self.ceph_object_list if d.role == role or not role]`. -/
def node_get_ceph_objects (st : CephNodeState) (role : String) : List CephObjL :=
  st.ceph_object_list.filter (fun o => decide (o.role = role) || role.isEmpty)

/-- `Ceph.get_ceph_objects(role)`: concatenate the per-node results over
`get_nodes(role)`. -/
def ceph_get_ceph_objects (cluster : List CephNodeState) (role : String) : List CephObjL :=
  ((get_nodes cluster role).map (fun n => node_get_ceph_objects n role)).flatten

/-- `Ceph.get_ceph_object(role, order_id)`:
`self.get_ceph_objects(role)[order_id]` with the `IndexError` handler
returning `None`. -/
def get_ceph_object (cluster : List CephNodeState) (role : String) (order_id : Int) :
    Option CephObjL :=
  match pyListGet (ceph_get_ceph_objects cluster role) order_id with
  | .ok a => some a
  | .error _ => none

/- ---------------------------------------------------------------
   Health check  (ceph/ceph.py lines 644-760)
   --------------------------------------------------------------- -/

/-- `Ceph.osd_check`: compare the OSD counts parsed from
`ceph -s -f json` (the remote query and JSON parsing are abstracted
into the three count parameters).  `some 1` / `some 0` are the explicit
returns of the source; the implicit `None` fall-through is unreachable. -/
def osd_check (num_osds num_up_osds num_in_osds : Nat) : Option Nat :=
  if num_osds ≠ num_up_osds then some 1
  else if num_osds ≠ num_in_osds then some 1
  else if num_osds = num_up_osds ∧ num_up_osds = num_in_osds then some 0
  else none

/-- The `pending_states` list of `check_health`. -/
def pendingStates : List String := ["peering", "activating", "creating"]

/-- The `valid_states` list of `check_health`. -/
def validStates : List String := ["active+clean"]

/-- The polling loop of `check_health`: at most `fuel` iterations (the
wall-clock bound abstracted to an iteration count); `statusSeq i` is the
`ceph -s` output of the i-th poll.  Returns the final value of `out`:
the loop breaks once no pending state and every valid state is present. -/
def pollLoop (statusSeq : Nat → String) : Nat → Nat → String → String
  | 0, _, out => out
  | fuel + 1, i, _ =>
    let o := statusSeq i
    if pendingStates.any (fun s => containsStr o s) then
      pollLoop statusSeq fuel (i + 1) o
    else if validStates.all (fun s => containsStr o s) then o
    else pollLoop statusSeq fuel (i + 1) o

/-- `Ceph.check_health`.  Remote queries are abstracted: `statusSeq`
gives the successive `ceph -s` outputs, the three counts are the parsed
`osdmap` numbers, `quorum_len` is `len(mons["quorum"])`, `mon_count` is
`self.ceph_demon_stat["mon"]`, and `quorum_out` is the raw
`ceph quorum_status -f json` output (which, in the non-pacific branch,
overwrites `out` before the final `HEALTH_ERR` test).  Note that the
source calls `osd_check` without using its return value; the model
keeps that call as the discarded binding `_osd_result`. -/
def check_health (rhbuild : String) (fuel : Nat) (statusSeq : Nat → String)
    (num_osds num_up_osds num_in_osds : Nat)
    (quorum_len mon_count : Nat) (quorum_out : String) : Nat :=
  let pacific := rhbuild ≠ "" && pyStrGe (firstComponent rhbuild) "5"
  let out := pollLoop statusSeq fuel 0 ""
  if ¬ (validStates.all (fun s => containsStr out s) = true) then 1
  else
    let _osd_result := osd_check num_osds num_up_osds num_in_osds
    if pacific = false then
      if quorum_len ≠ mon_count then 1
      else if containsStr quorum_out "HEALTH_ERR" then 1
      else 0
    else if containsStr out "HEALTH_ERR" then 1
    else 0

/- ---------------------------------------------------------------
   exec_command  (ceph/ceph.py lines 1677-1743)
   --------------------------------------------------------------- -/

/-- The three return shapes of `CephNode.exec_command`. -/
inductive ExecRet where
  | tuple2 (stdout stderr : String)
  | codeOnly (ec : Int)
  | tuple4 (stdout stderr : String) (ec : Int) (duration : Nat)
deriving DecidableEq

/-- The keyword arguments of `exec_command` that determine its
control flow.  `check_ec = none` models an absent `check_ec` key
(`kw.get("check_ec", default)`); `verbose_present` models the
membership test `"verbose" in kw`, which is true even for
`verbose=False`. -/
structure ExecKw where
  cmd : String
  long_running : Bool := false
  check_ec : Option Bool := none
  verbose_present : Bool := false
deriving DecidableEq

/-- The `CommandFailed` message
`f"{cmd} returned {_err} and code {_exit} on {self.ip_address}"`. -/
def commandFailedMsg (cmd stderr : String) (ec : Int) (ip : String) : String :=
  cmd ++ " returned " ++ stderr ++ " and code " ++ toString ec ++ " on " ++ ip

/-- The exit-code check that `exec_command` applies on the path that
reaches it: default `False` for long-running commands, default `True`
otherwise. -/
def effectiveCheckEc (kw : ExecKw) : Bool :=
  if kw.long_running then kw.check_ec.getD false else kw.check_ec.getD true

/-- `CephNode.exec_command`, given the `(stdout, stderr, exit, duration)`
result of a completed `long_running` call on host `ip`.  `Except.error`
carries the `CommandFailed` message. -/
def exec_command (kw : ExecKw) (ip stdout stderr : String) (ec : Int) (duration : Nat) :
    Except String ExecRet :=
  if kw.verbose_present then
    .ok (.tuple4 stdout stderr ec duration)
  else if kw.long_running then
    if kw.check_ec.getD false = true ∧ ec ≠ 0 then
      .error (commandFailedMsg kw.cmd stderr ec ip)
    else
      .ok (.codeOnly ec)
  else if kw.check_ec.getD true = true ∧ ec ≠ 0 then
    .error (commandFailedMsg kw.cmd stderr ec ip)
  else
    .ok (.tuple2 stdout stderr)

/-- Substring relation used to state what the `CommandFailed` message
contains. -/
def SubstringOf (sub msg : String) : Prop :=
  ∃ pre post, msg = pre ++ sub ++ post

/- ---------------------------------------------------------------
   SSHConnectionManager.__connect  (ceph/ceph.py lines 1344-1367)
   --------------------------------------------------------------- -/

/-- Result of `__connect`: `ok` carries the final value of
`self.__outage_start_time`; `err` models the
`AssertionError("Unable to establish a connection ...")`. -/
inductive ConnResult where
  | ok (outage_start : Option Nat)
  | err
deriving DecidableEq

/-- The retry loop of `__connect` over a discrete clock.  `succ i` tells
whether the i-th `SSHClient.connect` attempt succeeds, `dur i` is the
time that attempt takes, `endTime` is `start + outage_timeout`.  After a
failed attempt the loop records the first-failure time (if unset) and
sleeps a fixed 10 seconds.  The returned list collects, for evidence,
each attempt as `(attempt index, attempt start time)`. -/
def connectAux (succ : Nat → Bool) (dur : Nat → Nat) (endTime : Nat)
    (i now : Nat) (os : Option Nat) : ConnResult × List (Nat × Nat) :=
  if endTime > now then
    if succ i then (ConnResult.ok none, [(i, now)])
    else
      let os1 := if os = none then some now else os
      let r := connectAux succ dur endTime (i + 1) (now + dur i + 10) os1
      (r.1, (i, now) :: r.2)
  else (ConnResult.err, [])
termination_by endTime - now
decreasing_by omega

/-- `SSHConnectionManager.__connect` entered at time `start` with outage
timeout `outage_timeout` and stored outage marker `os`. -/
def sshConnect (succ : Nat → Bool) (dur : Nat → Nat)
    (start outage_timeout : Nat) (os : Option Nat) : ConnResult × List (Nat × Nat) :=
  connectAux succ dur (start + outage_timeout) 0 start os

/- ---------------------------------------------------------------
   Incremental UTF-8 decoding and read_stream
   (ceph/ceph.py lines 1161-1196)
   --------------------------------------------------------------- -/

/-- The Unicode replacement character U+FFFD. -/
def REPLACEMENT : Nat := 0xFFFD

/-- Is `b` a UTF-8 continuation byte (`0x80..0xBF`)? -/
def isCont (b : Nat) : Bool := 0x80 ≤ b && b ≤ 0xBF

/-- Valid second byte after a three-byte leader `b` (CPython excludes
overlong encodings after `0xE0` and surrogates after `0xED`). -/
def cont2ok3 (b b1 : Nat) : Bool :=
  if b = 0xE0 then 0xA0 ≤ b1 && b1 ≤ 0xBF
  else if b = 0xED then 0x80 ≤ b1 && b1 ≤ 0x9F
  else isCont b1

/-- Valid second byte after a four-byte leader `b` (CPython excludes
overlong encodings after `0xF0` and past-U+10FFFF values after `0xF4`). -/
def cont2ok4 (b b1 : Nat) : Bool :=
  if b = 0xF0 then 0x90 ≤ b1 && b1 ≤ 0xBF
  else if b = 0xF4 then 0x80 ≤ b1 && b1 ≤ 0x8F
  else isCont b1

/-- Core of CPython's UTF-8 decoder with `errors="replace"`: decode as
many bytes as possible, replacing each maximal ill-formed subpart with
one U+FFFD, and return the decoded code points together with the
trailing bytes that form an incomplete (but still completable) sequence.
Fuel-indexed so that the kernel can evaluate it; `decodeCore` below
supplies sufficient fuel. -/
def decodeCoreF : Nat → List Nat → List Nat × List Nat
  | 0, l => ([], l)
  | _ + 1, [] => ([], [])
  | fuel + 1, b :: rest =>
    if b < 0x80 then
      let r := decodeCoreF fuel rest
      (b :: r.1, r.2)
    else if b < 0xC2 then
      let r := decodeCoreF fuel rest
      (REPLACEMENT :: r.1, r.2)
    else if b ≤ 0xDF then
      match rest with
      | [] => ([], [b])
      | b1 :: rest1 =>
        if isCont b1 then
          let r := decodeCoreF fuel rest1
          (((b - 0xC0) * 0x40 + (b1 - 0x80)) :: r.1, r.2)
        else
          let r := decodeCoreF fuel rest
          (REPLACEMENT :: r.1, r.2)
    else if b ≤ 0xEF then
      match rest with
      | [] => ([], [b])
      | b1 :: rest1 =>
        if cont2ok3 b b1 then
          match rest1 with
          | [] => ([], [b, b1])
          | b2 :: rest2 =>
            if isCont b2 then
              let r := decodeCoreF fuel rest2
              (((b - 0xE0) * 0x1000 + (b1 - 0x80) * 0x40 + (b2 - 0x80)) :: r.1, r.2)
            else
              let r := decodeCoreF fuel rest1
              (REPLACEMENT :: r.1, r.2)
        else
          let r := decodeCoreF fuel rest
          (REPLACEMENT :: r.1, r.2)
    else if b ≤ 0xF4 then
      match rest with
      | [] => ([], [b])
      | b1 :: rest1 =>
        if cont2ok4 b b1 then
          match rest1 with
          | [] => ([], [b, b1])
          | b2 :: rest2 =>
            if isCont b2 then
              match rest2 with
              | [] => ([], [b, b1, b2])
              | b3 :: rest3 =>
                if isCont b3 then
                  let r := decodeCoreF fuel rest3
                  (((b - 0xF0) * 0x40000 + (b1 - 0x80) * 0x1000
                     + (b2 - 0x80) * 0x40 + (b3 - 0x80)) :: r.1, r.2)
                else
                  let r := decodeCoreF fuel rest2
                  (REPLACEMENT :: r.1, r.2)
            else
              let r := decodeCoreF fuel rest1
              (REPLACEMENT :: r.1, r.2)
        else
          let r := decodeCoreF fuel rest
          (REPLACEMENT :: r.1, r.2)
    else
      let r := decodeCoreF fuel rest
      (REPLACEMENT :: r.1, r.2)

/-- Replace-mode UTF-8 decoding of a byte list into (code points,
trailing incomplete sequence). -/
def decodeCore (l : List Nat) : List Nat × List Nat :=
  decodeCoreF l.length l

/-- One `decode(input, final)` call on
`codecs.getincrementaldecoder("utf-8")(errors="replace")`: the buffered
`pending` bytes are prepended to the new input; on `final=True` a
leftover incomplete sequence becomes one replacement character and the
buffer empties. -/
def incDecode (pending input : List Nat) (final : Bool) : List Nat × List Nat :=
  let r := decodeCore (pending ++ input)
  if final then
    (r.1 ++ (if r.2.isEmpty then [] else [REPLACEMENT]), [])
  else r

/-- Python `bytes.decode("utf-8", errors="replace")` of a whole byte
sequence. -/
def pyReplaceDecode (bs : List Nat) : List Nat :=
  let r := decodeCore bs
  r.1 ++ (if r.2.isEmpty then [] else [REPLACEMENT])

/-- Python `bytes.splitlines()` (splits at `\r\n`, `\r`, `\n`, dropping
the terminators; a trailing segment without terminator is kept, an empty
input yields no lines). -/
def splitlinesB : List Nat → List Nat → List (List Nat)
  | [], acc => if acc.isEmpty then [] else [acc.reverse]
  | 13 :: 10 :: rest, acc => acc.reverse :: splitlinesB rest []
  | 13 :: rest, acc => acc.reverse :: splitlinesB rest []
  | 10 :: rest, acc => acc.reverse :: splitlinesB rest []
  | b :: rest, acc => splitlinesB rest (b :: acc)

/-- Decoder-state effect of logging one line:
`_decoder.decode(_ln, final=False)` (the decoded text only goes to the
logger; what persists is the decoder buffer). -/
def logPendingStep (st : List Nat) (ln : List Nat) : List Nat :=
  (incDecode st ln false).2

/-- `read_stream`: `chunks` are the successive byte chunks delivered by
`channel.recv`/`recv_stderr` (the 2048-byte framing and the timeout
checks do not affect the returned string).  `_output` accumulates all
bytes; when `log` is set, every line of every chunk is fed through the
single incremental decoder instance; the returned string is
`_decoder.decode(_output, final=True)` on that same instance.  (With
`errors="replace"` that decode cannot raise, so the
`UnicodeDecodeError` fallback branch of the source is unreachable.) -/
def read_stream (chunks : List (List Nat)) (log : Bool) : List Nat :=
  let output := chunks.flatten
  let pending :=
    if log then
      chunks.foldl (fun st chunk => (splitlinesB chunk []).foldl logPendingStep st) []
    else []
  (incDecode pending output true).1

/- ---------------------------------------------------------------
   Upgrade orchestration workflow
   (tests/cephadm/test_cephadm_upgrade.py lines 16-107)
   --------------------------------------------------------------- -/

/-- The configuration keys of the upgrade test that steer its control
flow.  `args_image` is `config["args"]["image"]` as supplied by the
caller (an override of the target tag, when present). -/
structure UpgradeConfig where
  rhbuild : String
  args_image : Option String := none
  benchmark : Bool := false
  verify_cluster_health : Bool := false

/-- `config.update({"args": {"image": "latest"}})`: the `args` mapping
is replaced wholesale, so `args.image` becomes `"latest"`
unconditionally. -/
def configUpdateArgs (cfg : UpgradeConfig) : UpgradeConfig :=
  { cfg with args_image := some "latest" }

/-- Modelled from the spec: `Orch.start_upgrade` is not under `src/`;
per the spec it issues "the cluster-wide upgrade-start command with the
resolved target image tag", the tag being `config["args"]["image"]` of
the config it receives. -/
def startUpgradeImageTag (cfg : UpgradeConfig) : String :=
  cfg.args_image.getD ""

/-- Outcomes of the remote/orchestrator operations invoked by the test.
Each `Except.error` models that call raising.  The orchestrator methods
(`Orch.set_tool_repo` etc.) are not under `src/`, so they are opaque
parameters here; the claims are decided by the control flow of `run`. -/
structure UpgradeEnv where
  config : UpgradeConfig
  bench_run : Except String Unit := .ok ()
  set_tool_repo : Except String Unit := .ok ()
  install : Except String Unit := .ok ()
  upgrade_check : Except String Unit := .ok ()
  rpm_qa : Except String String := .ok ""
  upgrade_stop : Except String String := .ok ""
  start_upgrade : String → Except String Unit := fun _ => .ok ()
  monitor_upgrade_status : Except String Unit := .ok ()
  check_health_rc : Except String Nat := .ok 0

/-- The `try` block of `run`. -/
def upgradeTryBody (env : UpgradeEnv) : Except String Unit := do
  if env.config.benchmark then
    env.bench_run
  env.set_tool_repo
  env.install
  env.upgrade_check
  if startsWithB env.config.rhbuild "5" then
    let ceph_version ← env.rpm_qa
    if containsStr ceph_version "16.2.7" then
      let _ ← env.upgrade_stop
      pure ()
  let cfg1 := configUpdateArgs env.config
  env.start_upgrade (startUpgradeImageTag cfg1)
  env.monitor_upgrade_status
  if env.config.verify_cluster_health then
    let rc ← env.check_health_rc
    if rc ≠ 0 then
      throw "UpgradeFailure: Cluster is in HEALTH_ERR state"

/-- The fixed diagnostic command list passed to
`orch.get_cluster_state` in the `finally` block. -/
def diagnosticCommands : List String :=
  ["ceph status", "ceph versions", "ceph orch ps -f yaml", "ceph orch ls -f yaml",
   "ceph orch upgrade status", "ceph mgr dump", "ceph mon stat"]

/-- `run`: execute the `try` body; any exception is caught
(`except BaseException`) and turns into return code 1; the `finally`
block always hands `diagnosticCommands` to `orch.get_cluster_state`.
The result is (return code, commands collected on exit). -/
def runUpgrade (env : UpgradeEnv) : Int × List String :=
  match upgradeTryBody env with
  | .ok _ => (0, diagnosticCommands)
  | .error _ => (1, diagnosticCommands)

/- ---------------------------------------------------------------
   Theorems.  Each claim Cn of the specification gets one theorem
   (plus, where the claim fails on the code, a counterexample).
   --------------------------------------------------------------- -/

/-- Helper: `pyListGet` raises `IndexError` exactly when the
(normalized) index is out of range. -/
theorem pyListGet_out_of_range (l : List α) (i : Int)
    (h : (l.length : Int) ≤ i ∨ i < -(l.length : Int)) :
    pyListGet l i = .error "IndexError" := by
  rcases h with h | h
  · have h0 : (0 : Int) ≤ i := le_trans (by positivity) h
    have hi : pyIndexNorm l.length i = i := by
      simp [pyIndexNorm]
      omega
    have hget : l[i.toNat]? = none := by
      rw [List.getElem?_eq_none_iff]
      omega
    simp [pyListGet, hi, h0, hget]
  · have hneg : ¬ (0 : Int) ≤ pyIndexNorm l.length i := by
      simp [pyIndexNorm]
      omega
    simp [pyListGet, hneg]

/-- Claim C10: `Ceph.get_ceph_object(role, order_id)` returns `None`
rather than raising whenever `order_id` is out of range of the objects
matching the role — in particular whenever no object of that role
exists at all. -/
theorem C10_get_ceph_object_none (cluster : List CephNodeState) (role : String) (i : Int)
    (h : ((ceph_get_ceph_objects cluster role).length : Int) ≤ i ∨
          i < -((ceph_get_ceph_objects cluster role).length : Int)) :
    get_ceph_object cluster role i = none := by
  unfold get_ceph_object
  rw [pyListGet_out_of_range _ _ h]

/-- Witness for C10: on a one-node cluster with a single monitor object,
asking for the first client object yields `None`. -/
theorem C10_witness :
    (((ceph_get_ceph_objects [⟨[], [⟨CephObjKind.demon, "mon", none⟩]⟩] "client").length : Int) ≤ 0 ∨
      (0 : Int) < -((ceph_get_ceph_objects [⟨[], [⟨CephObjKind.demon, "mon", none⟩]⟩] "client").length : Int)) ∧
    get_ceph_object [⟨[], [⟨CephObjKind.demon, "mon", none⟩]⟩] "client" 0 = none := by
  refine ⟨Or.inl (by decide), ?_⟩
  exact C10_get_ceph_object_none _ _ _ (Or.inl (by decide))

/-- Counterexample to claim C3 as stated: for the container holding
roles `["mon", "osd"]` and the collection `["mon"]`, the superset
reading says the comparison should hold (every element of the
collection is present), but `__eq__` evaluates to `False`: the code
tests that the node's roles are a subset of the collection, not a
superset. -/
theorem C3_counterexample :
    ¬ ((RolesContainer.mk ["mon", "osd"]).eq_collection ["mon"] = true ↔
        ∀ a ∈ (["mon"] : List String), a ∈ (RolesContainer.mk ["mon", "osd"]).role_list) := by
  decide

/-- Claim C3 (amended): equality of a `RolesContainer` against a single
role string tests membership of that role; equality against a
collection tests that every role of the container is in the collection
(subset, not superset). -/
theorem C3_roles_equality (r : RolesContainer) (s : String) (c : List String) :
    (r.eq_single s = true ↔ s ∈ r.role_list) ∧
    (r.eq_collection c = true ↔ ∀ a ∈ r.role_list, a ∈ c) := by
  constructor
  · simp [RolesContainer.eq_single]
  · simp [RolesContainer.eq_collection]

/-- Witness for C3 at concrete inputs. -/
theorem C3_witness :
    ((RolesContainer.mk ["mon", "osd"]).eq_single "osd" = true ↔
      "osd" ∈ (RolesContainer.mk ["mon", "osd"]).role_list) ∧
    ((RolesContainer.mk ["mon", "osd"]).eq_collection ["mon", "osd", "mgr"] = true ↔
      ∀ a ∈ (RolesContainer.mk ["mon", "osd"]).role_list, a ∈ (["mon", "osd", "mgr"] : List String)) :=
  C3_roles_equality (RolesContainer.mk ["mon", "osd"]) "osd" ["mon", "osd", "mgr"]

/-- Claim C9: the factory's client branch guard compares the role
string against the list `CLIENT_ROLES`, which is `False` for every
string, so role `"client"` falls through to the generic branch and a
plain `CephObject` is created, never a `CephClient`. -/
theorem C9_client_role_generic (volumes : List NodeVolume) :
    create_ceph_object volumes "client" =
      .ok (some { kind := CephObjKind.generic, role := "client", device := none }, volumes) ∧
    pyStrEqStrList "client" CLIENT_ROLES = false := by
  constructor
  · rfl
  · rfl

/-- Counterexample to claim C8 as stated: an image-tag override in
the incoming configuration is clobbered — after
`config.update({"args": {"image": "latest"}})` the tag handed to
`start_upgrade` is `"latest"`, not the override. -/
theorem C8_counterexample :
    startUpgradeImageTag
        (configUpdateArgs { rhbuild := "5.0", args_image := some "custom-tag" }) = "latest" ∧
    ("latest" : String) ≠ "custom-tag" := by
  refine ⟨rfl, ?_⟩
  decide

/-- Claim C8 (amended): every run of the upgrade workflow issues the
upgrade-start command with image tag `"latest"`, whatever
`config["args"]` held before. -/
theorem C8_upgrade_image_always_latest (cfg : UpgradeConfig) :
    startUpgradeImageTag (configUpdateArgs cfg) = "latest" := rfl

/-- Claim C2: any exception raised by a step of the upgrade workflow
body is converted into return code 1 instead of propagating, and every
run — success or failure — hands the fixed diagnostic command list to
`get_cluster_state` on exit. -/
theorem C2_upgrade_error_handling (env : UpgradeEnv) :
    (∀ e, upgradeTryBody env = .error e → (runUpgrade env).1 = 1) ∧
    (runUpgrade env).2 = diagnosticCommands ∧
    ((runUpgrade env).1 = 0 ∨ (runUpgrade env).1 = 1) := by
  unfold runUpgrade
  cases h : upgradeTryBody env <;> simp

/-- Witness for C2: a run whose `install` step raises returns 1 and
still collects the diagnostic commands. -/
theorem C2_witness :
    upgradeTryBody { config := { rhbuild := "5.0" }, install := .error "CommandFailed" } =
      .error "CommandFailed" ∧
    (runUpgrade { config := { rhbuild := "5.0" }, install := .error "CommandFailed" }).1 = 1 ∧
    (runUpgrade { config := { rhbuild := "5.0" }, install := .error "CommandFailed" }).2 =
      diagnosticCommands := by
  refine ⟨rfl, ?_, ?_⟩
  · exact (C2_upgrade_error_handling _).1 "CommandFailed" rfl
  · exact (C2_upgrade_error_handling _).2.1

/-- Counterexample to claim C6 as stated: with exit-code checking at
its enabled default and a non-zero exit code, passing `verbose`
(even `verbose=False`) makes `exec_command` return the 4-tuple without
raising `CommandFailed`. -/
theorem C6_counterexample :
    exec_command { cmd := "ceph -s", verbose_present := true } "10.0.0.1" "out" "boom" 1 3 =
      .ok (.tuple4 "out" "boom" 1 3) ∧
    effectiveCheckEc { cmd := "ceph -s", verbose_present := true } = true ∧
    (1 : Int) ≠ 0 := by
  refine ⟨rfl, rfl, ?_⟩
  decide

/-- Claim C6 (amended): whenever `verbose` was not passed, exit-code
checking is enabled (its default for non-long-running commands) and the
exit code is non-zero, `exec_command` raises `CommandFailed`, whose
message contains the command text, the stderr output, the exit code and
the host address. -/
theorem C6_command_failed (kw : ExecKw) (ip stdout stderr : String) (ec : Int) (dur : Nat)
    (hv : kw.verbose_present = false) (hc : effectiveCheckEc kw = true) (he : ec ≠ 0) :
    exec_command kw ip stdout stderr ec dur = .error (commandFailedMsg kw.cmd stderr ec ip) ∧
    SubstringOf kw.cmd (commandFailedMsg kw.cmd stderr ec ip) ∧
    SubstringOf stderr (commandFailedMsg kw.cmd stderr ec ip) ∧
    SubstringOf (toString ec) (commandFailedMsg kw.cmd stderr ec ip) ∧
    SubstringOf ip (commandFailedMsg kw.cmd stderr ec ip) := by
  refine ⟨?_, ?_, ?_, ?_, ?_⟩
  · unfold exec_command
    rw [hv]
    unfold effectiveCheckEc at hc
    by_cases hl : kw.long_running
    · rw [hl] at hc
      simp only [hl, if_true, if_false, Bool.false_eq_true]
      rw [if_pos ⟨hc, he⟩]
    · rw [if_neg hl] at hc
      simp only [hl, Bool.false_eq_true, if_false]
      rw [if_pos ⟨hc, he⟩]
  · exact ⟨"", " returned " ++ stderr ++ " and code " ++ toString ec ++ " on " ++ ip, by
      simp [commandFailedMsg, String.append_assoc]⟩
  · exact ⟨kw.cmd ++ " returned ", " and code " ++ toString ec ++ " on " ++ ip, by
      simp [commandFailedMsg, String.append_assoc]⟩
  · exact ⟨kw.cmd ++ " returned " ++ stderr ++ " and code ", " on " ++ ip, by
      simp [commandFailedMsg, String.append_assoc]⟩
  · exact ⟨kw.cmd ++ " returned " ++ stderr ++ " and code " ++ toString ec ++ " on ", "", by
      simp [commandFailedMsg, String.append_assoc]⟩

/-- Witness for C6 at concrete inputs. -/
theorem C6_witness :
    ({ cmd := "ls" } : ExecKw).verbose_present = false ∧
    effectiveCheckEc { cmd := "ls" } = true ∧
    (2 : Int) ≠ 0 ∧
    exec_command { cmd := "ls" } "host1" "" "boom" 2 7 =
      .error (commandFailedMsg "ls" "boom" 2 "host1") := by
  refine ⟨rfl, rfl, by decide, ?_⟩
  exact (C6_command_failed { cmd := "ls" } "host1" "" "boom" 2 7 rfl rfl (by decide)).1

/-- Counterexample to claim C4 as stated: one delivered chunk `b"\xc3"`
(a lone UTF-8 leader byte) with line-logging enabled (the default).
The logging pass buffers the byte inside the shared incremental
decoder, the final `decode(_output, final=True)` call then sees it
twice, and `read_stream` returns two replacement characters where the
replace-mode decoding of the received bytes is a single one. -/
theorem C4_counterexample :
    read_stream [[0xC3]] true = [0xFFFD, 0xFFFD] ∧
    pyReplaceDecode (List.flatten [[0xC3]]) = [0xFFFD] ∧
    read_stream [[0xC3]] true ≠ pyReplaceDecode (List.flatten [[0xC3]]) := by
  refine ⟨?_, ?_, ?_⟩ <;> decide

/-- Claim C4 (amended): decoding in `read_stream` is total (the
replace-mode decoder cannot raise, so the `UnicodeDecodeError` fallback
is unreachable), and when line-logging is disabled the returned string
equals the replace-mode UTF-8 decoding of the concatenation of all
received bytes; with logging enabled, a trailing incomplete multi-byte
sequence left in the shared decoder buffer is decoded twice. -/
theorem C4_read_stream_decode (chunks : List (List Nat)) :
    read_stream chunks false = pyReplaceDecode chunks.flatten := rfl

/-- Evidence for claim C1 (a code bug): a status that polls clean
("active+clean" present, nothing pending), a passing monitor quorum
check (3 of 3 expected monitors) and no hard-error marker, but OSD
counts 6 total / 5 up / 6 in.  `osd_check` reports the failure
(`some 1`), yet `check_health` returns 0 because the source drops
`osd_check`'s return value on the floor. -/
theorem C1_health_check_ignores_osd_mismatch :
    check_health "4.3" 1 (fun _ => "pgs: 64 active+clean health HEALTH_OK")
        6 5 6 3 3 "quorum 0 1 2 mon rank" = 0 ∧
    osd_check 6 5 6 = some 1 := by
  refine ⟨?_, ?_⟩ <;> decide

/-- Allocating the first free volume increases the allocated count by
exactly one. -/
theorem allocFirstFree_count (vols vols1 : List NodeVolume)
    (h : allocFirstFree vols = some vols1) :
    allocatedCount vols1 = allocatedCount vols + 1 := by
  induction vols generalizing vols1 with
  | nil => simp [allocFirstFree] at h
  | cons v vs ih =>
    by_cases hv : v.status = VolStatus.free
    · rw [allocFirstFree, if_pos hv] at h
      obtain rfl : ({ v with status := VolStatus.allocated } :: vs) = vols1 :=
        Option.some_injective _ h
      simp [allocatedCount, List.countP_cons, hv]
    · rw [allocFirstFree, if_neg hv] at h
      obtain ⟨l, hl, rfl⟩ := Option.map_eq_some.mp h
      have hv1 : v.status = VolStatus.allocated := by
        cases hst : v.status
        · exact absurd hst hv
        · rfl
      have ih1 := ih l hl
      unfold allocatedCount at ih1 ⊢
      simp [List.countP_cons, hv1]
      omega

/-- Freeing the first allocated volume decreases the allocated count by
exactly one. -/
theorem freeFirstAllocated_count (vols vols1 : List NodeVolume)
    (h : freeFirstAllocated vols = some vols1) :
    allocatedCount vols = allocatedCount vols1 + 1 := by
  induction vols generalizing vols1 with
  | nil => simp [freeFirstAllocated] at h
  | cons v vs ih =>
    by_cases hv : v.status = VolStatus.allocated
    · rw [freeFirstAllocated, if_pos hv] at h
      obtain rfl : ({ v with status := VolStatus.free } :: vs) = vols1 :=
        Option.some_injective _ h
      simp [allocatedCount, List.countP_cons, hv]
    · rw [freeFirstAllocated, if_neg hv] at h
      obtain ⟨l, hl, rfl⟩ := Option.map_eq_some.mp h
      have hv1 : v.status = VolStatus.free := by
        cases hst : v.status
        · rfl
        · exact absurd hst hv
      have ih1 := ih l hl
      unfold allocatedCount at ih1 ⊢
      simp [List.countP_cons, hv1]
      omega

/-- Removing the first occurrence of `x` from a list decreases
`countP p` by one if `p x` holds and leaves it unchanged otherwise. -/
theorem eraseFirst_countP [DecidableEq α] (p : α → Bool) (l l1 : List α) (x : α)
    (h : eraseFirst l x = some l1) :
    l.countP p = l1.countP p + (if p x then 1 else 0) := by
  induction l generalizing l1 with
  | nil => simp [eraseFirst] at h
  | cons a as ih =>
    by_cases ha : a = x
    · rw [eraseFirst, if_pos ha] at h
      obtain rfl : as = l1 := Option.some_injective _ h
      subst ha
      simp [List.countP_cons]
    · rw [eraseFirst, if_neg ha] at h
      obtain ⟨l2, hl2, rfl⟩ := Option.map_eq_some.mp h
      simp [List.countP_cons, ih l2 hl2]
      omega

/-- Behaviour of the factory on a successful creation: the created
object (when any) carries the requested role; for role `"osd"` exactly
one volume moves from free to allocated, for any other role the volume
list is untouched. -/
theorem create_ceph_object_spec (volumes : List NodeVolume) (role : String)
    (obj : Option CephObjL) (volumes1 : List NodeVolume)
    (h : create_ceph_object volumes role = .ok (obj, volumes1)) :
    (∀ o, obj = some o → o.role = role) ∧
    (role = "osd" → allocatedCount volumes1 = allocatedCount volumes + 1 ∧ obj.isSome = true) ∧
    (role ≠ "osd" → volumes1 = volumes) := by
  unfold create_ceph_object at h
  by_cases h1 : role = "installer"
  · rw [if_pos h1] at h
    obtain ⟨rfl, rfl⟩ : some { kind := .installer, role := role, device := none } = obj ∧
        volumes = volumes1 := by
      have := (Except.ok.injEq _ _).mp h
      exact ⟨(Prod.mk.injEq _ _ _ _).mp this |>.1, (Prod.mk.injEq _ _ _ _).mp this |>.2⟩
    refine ⟨fun o ho => ?_, fun hosd => absurd (h1 ▸ hosd) (by decide), fun _ => rfl⟩
    cases ho
    rfl
  · rw [if_neg h1] at h
    rw [show pyStrEqStrList role CLIENT_ROLES = false from rfl] at h
    simp only [Bool.false_eq_true, if_false] at h
    by_cases h3 : role = "osd"
    · rw [if_pos h3] at h
      cases haf : allocFirstFree volumes with
      | none => rw [haf] at h; exact Except.noConfusion h
      | some vols2 =>
        rw [haf] at h
        obtain ⟨rfl, rfl⟩ : some { kind := .osd, role := role, device := none } = obj ∧
            vols2 = volumes1 := by
          have := (Except.ok.injEq _ _).mp h
          exact ⟨(Prod.mk.injEq _ _ _ _).mp this |>.1, (Prod.mk.injEq _ _ _ _).mp this |>.2⟩
        refine ⟨fun o ho => ?_, fun _ => ⟨allocFirstFree_count _ _ haf, rfl⟩,
          fun hne => absurd h3 hne⟩
        cases ho
        rfl
    · rw [if_neg h3] at h
      by_cases h4 : DEMON_ROLES.contains role = true
      · rw [if_pos h4] at h
        obtain ⟨rfl, rfl⟩ : some { kind := .demon, role := role, device := none } = obj ∧
            volumes = volumes1 := by
          have := (Except.ok.injEq _ _).mp h
          exact ⟨(Prod.mk.injEq _ _ _ _).mp this |>.1, (Prod.mk.injEq _ _ _ _).mp this |>.2⟩
        refine ⟨fun o ho => ?_, fun hosd => absurd hosd h3, fun _ => rfl⟩
        cases ho
        rfl
      · rw [if_neg h4] at h
        by_cases h5 : role ≠ "pool"
        · rw [if_pos h5] at h
          obtain ⟨rfl, rfl⟩ : some { kind := .generic, role := role, device := none } = obj ∧
              volumes = volumes1 := by
            have := (Except.ok.injEq _ _).mp h
            exact ⟨(Prod.mk.injEq _ _ _ _).mp this |>.1, (Prod.mk.injEq _ _ _ _).mp this |>.2⟩
          refine ⟨fun o ho => ?_, fun hosd => absurd hosd h3, fun _ => rfl⟩
          cases ho
          rfl
        · rw [if_neg h5] at h
          obtain ⟨rfl, rfl⟩ : (none : Option CephObjL) = obj ∧ volumes = volumes1 := by
            have := (Except.ok.injEq _ _).mp h
            exact ⟨(Prod.mk.injEq _ _ _ _).mp this |>.1, (Prod.mk.injEq _ _ _ _).mp this |>.2⟩
          exact ⟨fun o ho => Option.noConfusion ho, fun hosd => absurd hosd h3, fun _ => rfl⟩

/-- Counterexample to claim C7 as stated: creating the OSD role object
allocates a volume, but the factory constructs `CephOsd` with no device
(`CephOsd(self.node)`), so its `is_active` property is `False`: right
after the creation one volume is allocated while zero OSD role objects
are active in the sense the specification defines ("active" iff a
device is assigned). -/
theorem C7_counterexample :
    node_create_ceph_object ⟨[⟨VolStatus.free, none⟩], []⟩ "osd" =
      .ok (⟨[⟨VolStatus.allocated, none⟩], [⟨CephObjKind.osd, "osd", none⟩]⟩,
           some ⟨CephObjKind.osd, "osd", none⟩) ∧
    allocatedCount [⟨VolStatus.allocated, none⟩] = 1 ∧
    activeOsdCount [⟨CephObjKind.osd, "osd", none⟩] = 0 := by
  refine ⟨rfl, rfl, rfl⟩


/-- Claim C7 (amended): on every node the number of allocated volumes
equals the number of OSD role objects present (whether or not a device
has been assigned yet), so OSDs with an assigned device never exceed
the allocated volumes.  Creating a role object preserves the equality,
allocating exactly one free volume when the role is `"osd"` (and
failing fatally when no volume is free); removing a role object
preserves it, freeing exactly one allocated volume when the removed
object is an OSD. -/
theorem C7_volume_osd_invariant :
    (∀ st role st1 obj, volumesOsdInv st →
        node_create_ceph_object st role = .ok (st1, obj) →
        volumesOsdInv st1 ∧
        (role = "osd" → allocatedCount st1.volumes = allocatedCount st.volumes + 1) ∧
        (role ≠ "osd" → allocatedCount st1.volumes = allocatedCount st.volumes)) ∧
    (∀ st, allocFirstFree st.volumes = none →
        ∃ e, node_create_ceph_object st "osd" = .error e) ∧
    (∀ st obj st1, volumesOsdInv st →
        remove_ceph_object st obj = .ok st1 →
        volumesOsdInv st1 ∧
        (obj.role = "osd" → allocatedCount st.volumes = allocatedCount st1.volumes + 1) ∧
        (obj.role ≠ "osd" → allocatedCount st1.volumes = allocatedCount st.volumes)) ∧
    (∀ st, volumesOsdInv st →
        activeOsdCount st.ceph_object_list ≤ allocatedCount st.volumes) := by
  refine ⟨?create, ?nofree, ?remove, ?active⟩
  case create =>
    intro st role st1 obj hinv h
    unfold node_create_ceph_object at h
    cases hc : create_ceph_object st.volumes role with
    | error e => rw [hc] at h; exact Except.noConfusion h
    | ok p =>
      obtain ⟨o, vols1⟩ := p
      rw [hc] at h
      have hinj : CephNodeState.mk vols1 (st.ceph_object_list ++ o.toList) = st1 ∧
          o = obj := by
        have h2 := (Except.ok.injEq _ _).mp h
        exact ⟨(Prod.mk.injEq _ _ _ _).mp h2 |>.1, (Prod.mk.injEq _ _ _ _).mp h2 |>.2⟩
      obtain ⟨hst1, hobj⟩ := hinj
      subst hobj
      subst hst1
      obtain ⟨hrole, hosd, hother⟩ := create_ceph_object_spec st.volumes role o vols1 hc
      have hcount : osdObjCount (st.ceph_object_list ++ o.toList) =
          osdObjCount st.ceph_object_list +
            (if role = "osd" then o.toList.length else 0) := by
        unfold osdObjCount
        rw [List.countP_append]
        congr 1
        cases o with
        | none => simp
        | some o1 =>
          have hr1 := hrole o1 rfl
          by_cases hro : role = "osd"
          · simp [List.countP_cons, hr1, hro]
          · simp [List.countP_cons, hr1, hro]
      by_cases hro : role = "osd"
      · obtain ⟨hallo, hsome⟩ := hosd hro
        refine ⟨?_, fun _ => hallo, fun hne => absurd hro hne⟩
        obtain ⟨o1, rfl⟩ := Option.isSome_iff_exists.mp hsome
        unfold volumesOsdInv at hinv ⊢
        simp only at hallo hcount ⊢
        rw [hcount, hallo, hinv]
        simp [hro]
      · have hveq := hother hro
        subst hveq
        refine ⟨?_, fun hx => absurd hx hro, fun _ => rfl⟩
        unfold volumesOsdInv at hinv ⊢
        simp only at hcount ⊢
        rw [hcount, hinv]
        simp [hro]
  case nofree =>
    intro st hnone
    refine ⟨"RuntimeError: node does not have no-of-volumes key defined in the inventory file", ?_⟩
    unfold node_create_ceph_object create_ceph_object
    rw [show pyStrEqStrList "osd" CLIENT_ROLES = false from rfl]
    simp [hnone]
  case remove =>
    intro st obj st1 hinv h
    unfold remove_ceph_object at h
    cases he : eraseFirst st.ceph_object_list obj with
    | none => rw [he] at h; exact Except.noConfusion h
    | some objs1 =>
      rw [he] at h
      dsimp only at h
      have hcount := eraseFirst_countP (fun o => decide (o.role = "osd"))
        st.ceph_object_list objs1 obj he
      by_cases hro : obj.role = "osd"
      · rw [if_pos hro] at h
        cases hf : freeFirstAllocated st.volumes with
        | none => rw [hf] at h; exact Except.noConfusion h
        | some vols1 =>
          rw [hf] at h
          obtain rfl : CephNodeState.mk vols1 objs1 = st1 :=
            (Except.ok.injEq _ _).mp h
          have hfree := freeFirstAllocated_count st.volumes vols1 hf
          refine ⟨?_, fun _ => hfree, fun hne => absurd hro hne⟩
          have hcount2 : List.countP (fun o => decide (o.role = "osd")) st.ceph_object_list =
              List.countP (fun o => decide (o.role = "osd")) objs1 + 1 := by
            rw [hcount]
            simp [hro]
          unfold volumesOsdInv osdObjCount at hinv ⊢
          simp only
          omega
      · rw [if_neg hro] at h
        obtain rfl : CephNodeState.mk st.volumes objs1 = st1 :=
          (Except.ok.injEq _ _).mp h
        refine ⟨?_, fun hx => absurd hx hro, fun _ => rfl⟩
        have hcount2 : List.countP (fun o => decide (o.role = "osd")) st.ceph_object_list =
            List.countP (fun o => decide (o.role = "osd")) objs1 := by
          rw [hcount]
          simp [hro]
        unfold volumesOsdInv osdObjCount at hinv ⊢
        simp only
        omega
  case active =>
    intro st hinv
    unfold volumesOsdInv at hinv
    rw [hinv]
    unfold activeOsdCount osdObjCount
    exact List.countP_mono_left (fun o _ hp => by
      simp only [Bool.and_eq_true] at hp
      exact hp.1)

/-- Witness for C7: creating a monitor object on an empty node keeps
the invariant, and the active-OSD bound holds on a node with one
allocated volume and one device-less OSD object. -/
theorem C7_witness :
    volumesOsdInv ⟨[], [⟨CephObjKind.demon, "mon", none⟩]⟩ ∧
    activeOsdCount ([⟨CephObjKind.osd, "osd", none⟩] : List CephObjL) ≤
      allocatedCount [⟨VolStatus.allocated, none⟩] := by
  constructor
  · exact (C7_volume_osd_invariant.1 ⟨[], []⟩ "mon"
      ⟨[], [⟨CephObjKind.demon, "mon", none⟩]⟩ (some ⟨CephObjKind.demon, "mon", none⟩)
      rfl rfl).1
  · exact C7_volume_osd_invariant.2.2.2
      ⟨[⟨VolStatus.allocated, none⟩], [⟨CephObjKind.osd, "osd", none⟩]⟩ rfl

/-- Master lemma about the `__connect` retry loop, by induction on the
remaining time budget: on success the outage marker is reset to `none`;
every attempt starts strictly before the deadline; the
connection-unestablished error is raised exactly when every attempt in
the window failed; consecutive attempts are 10 seconds (plus the
duration of the failed attempt) apart; and the first attempt, when the
window is open, happens immediately. -/
theorem connectAux_spec (succ : Nat → Bool) (dur : Nat → Nat) (endTime : Nat) :
    ∀ n i now os, endTime - now ≤ n →
      (∀ o, (connectAux succ dur endTime i now os).1 = ConnResult.ok o → o = none) ∧
      (∀ p ∈ (connectAux succ dur endTime i now os).2, p.2 < endTime) ∧
      ((connectAux succ dur endTime i now os).1 = ConnResult.err ↔
        ∀ p ∈ (connectAux succ dur endTime i now os).2, succ p.1 = false) ∧
      List.Chain' (fun p q : Nat × Nat => q.1 = p.1 + 1 ∧ q.2 = p.2 + dur p.1 + 10)
        (connectAux succ dur endTime i now os).2 ∧
      (now < endTime →
        (connectAux succ dur endTime i now os).2.head? = some (i, now)) ∧
      (¬ now < endTime → (connectAux succ dur endTime i now os).2 = []) := by
  intro n
  induction n with
  | zero =>
    intro i now os hn
    have hlt : ¬ now < endTime := by omega
    rw [connectAux, if_neg hlt]
    refine ⟨fun o ho => ConnResult.noConfusion ho, fun p hp => absurd hp (List.not_mem_nil p),
      ?_, List.chain'_nil, fun hc => absurd hc hlt, fun _ => rfl⟩
    constructor
    · intro _ p hp
      exact absurd hp (List.not_mem_nil p)
    · intro _
      rfl
  | succ n ih =>
    intro i now os hn
    by_cases hlt : now < endTime
    · rw [connectAux, if_pos hlt]
      by_cases hs : succ i = true
      · rw [if_pos hs]
        refine ⟨fun o ho => ?_, fun p hp => ?_, ?_, List.chain'_singleton _,
          fun _ => rfl, fun hc => absurd hlt hc⟩
        · exact (ConnResult.ok.injEq _ _).mp ho |>.symm
        · rcases List.mem_singleton.mp hp with rfl
          exact hlt
        · constructor
          · intro hcontr
            exact ConnResult.noConfusion hcontr
          · intro hall
            have := hall (i, now) (List.mem_singleton.mpr rfl)
            rw [hs] at this
            exact Bool.noConfusion this
      · rw [if_neg hs]
        have hn1 : endTime - (now + dur i + 10) ≤ n := by omega
        obtain ⟨ih1, ih2, ih3, ih4, ih5, ih6⟩ :=
          ih (i + 1) (now + dur i + 10) (if os = none then some now else os) hn1
        refine ⟨ih1, ?_, ?_, ?_, fun _ => rfl, fun hc => absurd hlt hc⟩
        · intro p hp
          rcases List.mem_cons.mp hp with rfl | hp2
          · exact hlt
          · exact ih2 p hp2
        · constructor
          · intro herr p hp
            rcases List.mem_cons.mp hp with rfl | hp2
            · exact Bool.not_eq_true _ |>.mp hs
            · exact ih3.mp herr p hp2
          · intro hall
            exact ih3.mpr (fun p hp => hall p (List.mem_cons_of_mem _ hp))
        · rw [List.chain'_cons']
          refine ⟨?_, ih4⟩
          intro q hq
          by_cases hlt2 : now + dur i + 10 < endTime
          · rw [ih5 hlt2] at hq
            rcases Option.mem_some_iff.mp hq with rfl
            exact ⟨rfl, rfl⟩
          · rw [ih6 hlt2] at hq
            exact absurd hq (by simp)
    · rw [connectAux, if_neg hlt]
      refine ⟨fun o ho => ConnResult.noConfusion ho, fun p hp => absurd hp (List.not_mem_nil p),
        ?_, List.chain'_nil, fun hc => absurd hc hlt, fun _ => rfl⟩
      constructor
      · intro _ p hp
        exact absurd hp (List.not_mem_nil p)
      · intro _
        rfl

/-- Claim C5: `connect()` keeps attempting a session, waiting a fixed
10 seconds after each failed attempt, never starting an attempt at or
past `start + outage_timeout`; if an attempt succeeds the first-failure
marker is reset to `None` and the call returns; it ends in the
connection-unestablished error exactly when every attempt in the
window failed (so it never returns without a live session). -/
theorem C5_connect_retry (succ : Nat → Bool) (dur : Nat → Nat)
    (start outage_timeout : Nat) (os : Option Nat) :
    (∀ o, (sshConnect succ dur start outage_timeout os).1 = ConnResult.ok o → o = none) ∧
    (∀ p ∈ (sshConnect succ dur start outage_timeout os).2, p.2 < start + outage_timeout) ∧
    ((sshConnect succ dur start outage_timeout os).1 = ConnResult.err ↔
      ∀ p ∈ (sshConnect succ dur start outage_timeout os).2, succ p.1 = false) ∧
    List.Chain' (fun p q : Nat × Nat => q.1 = p.1 + 1 ∧ q.2 = p.2 + dur p.1 + 10)
      (sshConnect succ dur start outage_timeout os).2 ∧
    (0 < outage_timeout →
      (sshConnect succ dur start outage_timeout os).2.head? = some (0, start)) := by
  obtain ⟨h1, h2, h3, h4, h5, h6⟩ :=
    connectAux_spec succ dur (start + outage_timeout) outage_timeout 0 start os (by omega)
  exact ⟨h1, h2, h3, h4, fun ht => h5 (by omega)⟩

/-- Witness for C5: with every attempt failing, a 25-second outage
timeout and zero-duration attempts, the loop tries at times 0, 10 and
20, each strictly inside the window, and ends in the
connection-unestablished error. -/
theorem C5_witness :
    ((0, 0) : Nat × Nat) ∈ (sshConnect (fun _ => false) (fun _ => 0) 0 25 none).2 ∧
    ((0, 0) : Nat × Nat).2 < 0 + 25 ∧
    (sshConnect (fun _ => false) (fun _ => 0) 0 25 none).1 = ConnResult.err := by
  have hm : ((0, 0) : Nat × Nat) ∈ (sshConnect (fun _ => false) (fun _ => 0) 0 25 none).2 := by
    simp [sshConnect, connectAux]
  refine ⟨hm, (C5_connect_retry (fun _ => false) (fun _ => 0) 0 25 none).2.1 (0, 0) hm, ?_⟩
  exact (C5_connect_retry (fun _ => false) (fun _ => 0) 0 25 none).2.2.1.mpr
    (fun p _ => rfl)
